import Mathlib

/-!
Verification development for the xenoform repository: a shallow embedding of
the type/signature translation engine (src/xenoform/types.py, utils.py) and
the content-addressed build cache (src/xenoform/compile.py), with theorems
settling the frozen claims about the specification.

Python strings are Lean `String`s; Python `None`-able values are `Option`;
Python exceptions are an `Err` inductive threaded through `Except`.
-/

/-- Err models the Python exceptions that the translated code can raise:
`CppTypeError` (xenoform.errors), `IndexError` from unguarded tuple indexing,
`TypeError`, `AssertionError`, `AnnotationError` and `CompilationError`. -/
inductive Err where
  | cppTypeError (msg : String)
  | indexError
  | typeError (msg : String)
  | assertionError (msg : String)
  | annotError (msg : String)
  | compilationError (msg : String)
deriving DecidableEq, Repr

/-- Python `", ".join`-style list joining. -/
def joinSep (sep : String) : List String → String
  | [] => ""
  | [s] => s
  | s :: rest => s ++ sep ++ joinSep sep rest

/-- Model of `", ".join(...)`. -/
def joinComma : List String → String := joinSep ", "

/-- Python truthiness of an optional string: `None` and `""` are falsy. -/
def falsyOptStr : Option String → Bool
  | none => true
  | some s => s == ""

/-- The Python type objects that occur as `PyTypeTree.type` values:
the keys of `DEFAULT_TYPE_MAPPING` in types.py, plus `NoneType` (the class,
which appears among union members), `np.dtype` (the origin of dtype
annotations) and a constructor for any other (unmapped) Python type. -/
inductive PyType where
  | noneV      -- the value `None` used as an annotation (key `None` of the mapping)
  | int
  | npInt32
  | npInt64
  | bool
  | float
  | npFloat32
  | npFloat64
  | complexT
  | npComplex64
  | npComplex128
  | strT
  | ndarray
  | bytes
  | bytearray
  | listT
  | setT
  | frozensetT
  | dictT
  | tupleT
  | sliceT
  | anyT
  | selfT
  | typeT
  | unionType
  | callable
  | ellipsisType
  | noneType   -- the class `NoneType`; not a key of DEFAULT_TYPE_MAPPING
  | npDtype    -- `np.dtype`; not a key of DEFAULT_TYPE_MAPPING
  | unknown (name : String)  -- any Python type without a registered mapping
deriving DecidableEq, Repr

/-- Model of `DEFAULT_TYPE_MAPPING` (types.py lines 25-53): `dict.get`, `none` when the
key is absent. -/
def DEFAULT_TYPE_MAPPING : PyType → Option String
  | .noneV => some "void"
  | .int => some "int"
  | .npInt32 => some "int32_t"
  | .npInt64 => some "int64_t"
  | .bool => some "bool"
  | .float => some "double"
  | .npFloat32 => some "float"
  | .npFloat64 => some "double"
  | .complexT => some "std::complex<double>"
  | .npComplex64 => some "std::complex<float>"
  | .npComplex128 => some "std::complex<double>"
  | .strT => some "std::string"
  | .ndarray => some "py::array_t"
  | .bytes => some "py::bytes"
  | .bytearray => some "py::bytearray"
  | .listT => some "std::vector"
  | .setT => some "std::unordered_set"
  | .frozensetT => some "const std::unordered_set"
  | .dictT => some "std::unordered_map"
  | .tupleT => some "std::tuple"
  | .sliceT => some "py::slice"
  | .anyT => some "py::object"
  | .selfT => some "py::object"
  | .typeT => some "py::type"
  | .unionType => some "std::variant"
  | .callable => some "std::function"
  | .ellipsisType => some "py::ellipsis"
  | .noneType => none
  | .npDtype => none
  | .unknown _ => none

/-- Model of `header_requirements` (types.py lines 55-67) as an association list;
looked up with `dict.get` semantics (first match / `none`). -/
def header_requirements : List (String × String) :=
  [("std::complex<double>", "<pybind11/complex.h>"),
   ("std::complex<float>", "<pybind11/complex.h>"),
   ("std::string", "<string>"),
   ("std::vector", "<pybind11/stl.h>"),
   ("std::unordered_set", "<pybind11/stl.h>"),
   ("std::unordered_map", "<pybind11/stl.h>"),
   ("std::tuple", "<pybind11/stl.h>"),
   ("py::array_t", "<pybind11/numpy.h>"),
   ("std::variant", "<pybind11/stl.h>"),
   ("std::optional", "<pybind11/stl.h>"),
   ("std::function", "<pybind11/functional.h>")]

/-- Python `str(type)` as interpolated into the `CppTypeError` message
(f-string `{tree.type}`): `<class 'x'>` for classes, special spellings for
`None`, `typing.Any`, `typing.Self` and `...`. -/
def pyStrType : PyType → String
  | .noneV => "None"
  | .int => "<class \x27int\x27>"
  | .npInt32 => "<class \x27numpy.int32\x27>"
  | .npInt64 => "<class \x27numpy.int64\x27>"
  | .bool => "<class \x27bool\x27>"
  | .float => "<class \x27float\x27>"
  | .npFloat32 => "<class \x27numpy.float32\x27>"
  | .npFloat64 => "<class \x27numpy.float64\x27>"
  | .complexT => "<class \x27complex\x27>"
  | .npComplex64 => "<class \x27numpy.complex64\x27>"
  | .npComplex128 => "<class \x27numpy.complex128\x27>"
  | .strT => "<class \x27str\x27>"
  | .ndarray => "<class \x27numpy.ndarray\x27>"
  | .bytes => "<class \x27bytes\x27>"
  | .bytearray => "<class \x27bytearray\x27>"
  | .listT => "<class \x27list\x27>"
  | .setT => "<class \x27set\x27>"
  | .frozensetT => "<class \x27frozenset\x27>"
  | .dictT => "<class \x27dict\x27>"
  | .tupleT => "<class \x27tuple\x27>"
  | .sliceT => "<class \x27slice\x27>"
  | .anyT => "typing.Any"
  | .selfT => "typing.Self"
  | .typeT => "<class \x27type\x27>"
  | .unionType => "<class \x27types.UnionType\x27>"
  | .callable => "typing.Callable"
  | .ellipsisType => "<class \x27ellipsis\x27>"
  | .noneType => "<class \x27NoneType\x27>"
  | .npDtype => "<class \x27numpy.dtype\x27>"
  | .unknown name => "<class \x27" ++ name ++ "\x27>"

/-- Model of `CppQualifier` (types.py lines 13-21), a `StrEnum` of format strings. -/
inductive CppQualifier where
  | Auto | Ref | CRef | RRef | Ptr | PtrC | CPtr | CPtrC
deriving DecidableEq, Repr

/-- Model of `qualifier.format(t)`: the result of `str.format` on each enum value
(`"{}"`, `"{}&"`, `"const {}&"`, ...). -/
def CppQualifier.format : CppQualifier → String → String
  | .Auto, t => t
  | .Ref, t => t ++ "&"
  | .CRef, t => "const " ++ t ++ "&"
  | .RRef, t => t ++ "&&"
  | .Ptr, t => t ++ "*"
  | .PtrC, t => "const " ++ t ++ "*"
  | .CPtr, t => t ++ "* const"
  | .CPtrC, t => "const " ++ t ++ "* const"

/-- Model of `PyTypeTree` (types.py lines 70-92): the already-parsed tree, with
`get_origin` resolved into `type` and `get_args` into `subtypes`
(`Callable` subtypes already flattened with the return type first). -/
inductive PyTypeTree where
  | mk (type : PyType) (subtypes : List PyTypeTree)
deriving Repr

def PyTypeTree.type : PyTypeTree → PyType
  | .mk t _ => t

def PyTypeTree.subtypes : PyTypeTree → List PyTypeTree
  | .mk _ ts => ts

/-- Model of `CppTypeTree` (types.py lines 95-144): `type` is the mapped base name
(`None` only when an override is supplied), `ov` the override literal
(field `override` in the source), `qualfier` spelled as in the source. -/
inductive CppTypeTree where
  | mk (type : Option String) (ov : Option String) (qualfier : Option CppQualifier)
       (subtypes : List CppTypeTree)
deriving Repr

def CppTypeTree.type : CppTypeTree → Option String
  | .mk t _ _ _ => t

def CppTypeTree.ov : CppTypeTree → Option String
  | .mk _ o _ _ => o

def CppTypeTree.qualfier : CppTypeTree → Option CppQualifier
  | .mk _ _ q _ => q

def CppTypeTree.subtypes : CppTypeTree → List CppTypeTree
  | .mk _ _ _ s => s

/-- The `CppTypeError` message of types.py line 101. -/
def unmappedMsg (t : PyType) : String :=
  "Don\x27t know a C++ type for \x27" ++ pyStrType t ++ "\x27 and no override provided"

mutual

/-- Model of `CppTypeTree.__init__` (types.py lines 98-117).
Line 100: `if not self.type and not override` raises `CppTypeError`.
Lines 104-108: ndarray unwraps `tree.subtypes[1].subtypes[0]` (unguarded
tuple indexing: `IndexError` when absent); other subtypes are translated
with members of type `NoneType` filtered out.
Lines 110-117: a `std::variant` that lost exactly one member to the filter
becomes `std::optional`, wrapping a copy of itself (with override and
qualifier cleared) when more than one member remains. -/
def CppTypeTree.init (tree : PyTypeTree) (override : Option String)
    (qualifier : Option CppQualifier) : Except Err CppTypeTree :=
  match tree with
  | .mk ttype tsubs =>
    let ty := DEFAULT_TYPE_MAPPING ttype
    if falsyOptStr ty && falsyOptStr override then
      .error (.cppTypeError (unmappedMsg ttype))
    else
      let subsE : Except Err (List CppTypeTree) :=
        if ttype = .ndarray then
          match tsubs with
          | _ :: PyTypeTree.mk _ (el :: _) :: _ =>
            match CppTypeTree.init el none none with
            | .error e => .error e
            | .ok c => .ok [c]
          | _ => .error .indexError
        else CppTypeTree.initList tsubs
      match subsE with
      | .error e => .error e
      | .ok st =>
        if ty = some "std::variant" ∧ (st.length : Int) = (tsubs.length : Int) - 1 then
          if st.length > 1 then
            .ok (.mk (some "std::optional") override qualifier [.mk ty none none st])
          else
            .ok (.mk (some "std::optional") override qualifier st)
        else .ok (.mk ty override qualifier st)

/-- The generator of types.py line 108: subtypes whose `type` is `NoneType`
are skipped, the rest are translated in order (first failure propagates). -/
def CppTypeTree.initList : List PyTypeTree → Except Err (List CppTypeTree)
  | [] => .ok []
  | t :: ts =>
    if PyTypeTree.type t = PyType.noneType then CppTypeTree.initList ts
    else
      match CppTypeTree.init t none none with
      | .error e => .error e
      | .ok c =>
        match CppTypeTree.initList ts with
        | .error e => .error e
        | .ok cs => .ok (c :: cs)

end

mutual

/-- Model of `CppTypeTree.__repr__` (types.py lines 119-129). A truthy override is
returned verbatim; otherwise the base renders with `<...>` subtypes
(`ret(args...)` for `std::function`), and the qualifier wraps the result.
(For a `std::function` node with no subtypes the source would raise
`IndexError` on `self.subtypes[0]`; that shape is rendered as the bare base
here and is not relied on by any theorem.) -/
def CppTypeTree.repr : CppTypeTree → String
  | .mk ty over qual subs =>
    if falsyOptStr over then
      let t := match ty with
        | some s => s
        | none => "None"   -- f-string of a `None` base
      let t :=
        if ty = some "std::function" then
          match subs with
          | s0 :: rest => t ++ "<" ++ CppTypeTree.repr s0 ++ "(" ++
              joinComma (CppTypeTree.reprList rest) ++ ")>"
          | [] => t
        else if subs.isEmpty then t
        else t ++ "<" ++ joinComma (CppTypeTree.reprList subs) ++ ">"
      match qual with
      | some q => CppQualifier.format q t
      | none => t
    else (over.getD "")

def CppTypeTree.reprList : List CppTypeTree → List String
  | [] => []
  | t :: ts => CppTypeTree.repr t :: CppTypeTree.reprList ts

end

mutual

/-- Model of `CppTypeTree.headers` (types.py lines 131-144), in its equivalent pure
form: the accumulator-passing source appends, for each node in pre-order,
the header mapped to its base (skipping overridden nodes entirely, and
skipping falsy lookup results), which is exactly this concatenation. -/
def CppTypeTree.headers (mapping : List (String × String)) : CppTypeTree → List String
  | .mk ty over _ subs =>
    if falsyOptStr over then
      let key := match ty with
        | some s => s   -- `self.type or ""`
        | none => ""
      let own := match mapping.lookup key with
        | some h => if h == "" then [] else [h]
        | none => []
      own ++ CppTypeTree.headersList mapping subs
    else []

def CppTypeTree.headersList (mapping : List (String × String)) :
    List CppTypeTree → List String
  | [] => []
  | t :: ts => CppTypeTree.headers mapping t ++ CppTypeTree.headersList mapping ts

end

/-- The extra carried by an `Annotated[...]` wrapper: a `CppQualifier`
(checked first, since it subclasses `str`), a plain string (an override),
or anything else (which `parse_annotation` rejects with `TypeError`). -/
inductive AnnotExtra where
  | qual (q : CppQualifier)
  | strLit (s : String)
  | otherExtra
deriving Repr

/-- A type expression as passed to `translate_type`: either a bare type
(already in tree form) or an `Annotated[base, extras...]` wrapper. -/
inductive PyAnnot where
  | plain (t : PyTypeTree)
  | annotated (base : PyTypeTree) (extras : List AnnotExtra)
deriving Repr

/-- Model of `parse_annotation` (types.py lines 147-163): returns the base and the
keyword arguments (`override` / `qualifier`) it supplies to `CppTypeTree`;
asserts exactly one extra, raises `TypeError` on an unexpected extra. -/
def parse_annot (a : PyAnnot) :
    Except Err (PyTypeTree × Option String × Option CppQualifier) :=
  match a with
  | .plain t => .ok (t, none, none)
  | .annotated base extras =>
    match extras with
    | [.qual q] => .ok (base, none, some q)
    | [.strLit s] => .ok (base, some s, none)
    | [.otherExtra] => .error (.typeError "Unexpected extra")
    | _ => .error (.assertionError "one and only one extra must be specified")

/-- Model of `translate_type` (types.py lines 166-173). -/
def translate_type (t : PyAnnot) : Except Err CppTypeTree :=
  match parse_annot t with
  | .error e => .error e
  | .ok (base, over, qual) => CppTypeTree.init base over qual

/-- The `[` / `]` nesting contribution of one character
(the `defaultdict(int, {"[": 1, "]": -1})` of utils.py line 40). -/
def bracketDelta (c : Char) : Int :=
  if c = '[' then 1 else if c = ']' then -1 else 0

/-- Model of `Itr.accumulate(add)` over a list of deltas: inclusive running sums
starting from `acc`. -/
def accumulate : List Int → Int → List Int
  | [], _ => []
  | x :: xs, acc => (acc + x) :: accumulate xs (acc + x)

/-- The part of the signature string between the first `(` and the next `)`
(utils.py line 38: `skip_while(≠ '(').skip(1).take_while(≠ ')')`). -/
def extractParen (s : List Char) : List Char :=
  ((s.dropWhile (· ≠ '(')).drop 1).takeWhile (· ≠ ')')

/-- Python `str.split("$")` on a character list: at least one piece, empty
pieces preserved. -/
def splitOnDollar : List Char → List (List Char)
  | [] => [[]]
  | c :: cs =>
    if c = '$' then [] :: splitOnDollar cs
    else
      match splitOnDollar cs with
      | r :: rs => (c :: r) :: rs
      | [] => [[c]]

/-- Python `str.strip()`: whitespace removed from both ends. -/
def pyStrip (l : List Char) : List Char :=
  ((l.dropWhile Char.isWhitespace).reverse.dropWhile Char.isWhitespace).reverse

/-- Model of `_splitargs` (utils.py lines 33-46): mark each extracted character with
the inclusive running bracket depth, replace depth-0 commas with `$`, split
on `$` (the fold to a string followed by `str.split("$")` is `splitOnDollar`
on the character list) and strip each piece. -/
def _splitargs (signature : String) : List String :=
  let base := extractParen signature.data
  let mark := accumulate (base.map bracketDelta) 0
  let replaced := (base.zip mark).map
    (fun cn => if cn.1 = ',' ∧ cn.2 = 0 then '$' else cn.1)
  (splitOnDollar replaced).map (fun cs => String.mk (pyStrip cs))

/-- Modelled from the spec (§4.3 edge cases): splitting a rendered parameter
list at exactly the commas that lie at bracket-nesting depth zero, by
depth-aware scanning. This is the specification-side reference that
`_splitargs` is compared against. -/
def splitDepthZero : List Char → Int → List (List Char)
  | [], _ => [[]]
  | c :: cs, d =>
    if c = ',' ∧ d = 0 then [] :: splitDepthZero cs d
    else
      match splitDepthZero cs (d + bracketDelta c) with
      | r :: rs => (c :: r) :: rs
      | [] => [[c]]

/-- Modelled from the spec: the reference splitter applied the same way
`_splitargs` is (extract the parenthesised part, split at depth-zero
commas, strip each piece). -/
def splitTopLevelCommas (signature : String) : List String :=
  let base := extractParen signature.data
  (splitDepthZero base 0).map (fun cs => String.mk (pyStrip cs))

/-- Model of `inspect.Parameter.kind`. -/
inductive ParamKind where
  | positionalOnly | positionalOrKeyword | varPositional | keywordOnly | varKeyword
deriving DecidableEq, Repr

/-- A Python value as it can appear as a parameter default. -/
inductive PyValue where
  | pyBool (b : Bool)
  | pyInt (n : Int)
  | pyStr (s : String)
  | pyNone
deriving DecidableEq, Repr

/-- One parameter of a Python function signature. -/
structure PyParam where
  name : String
  kind : ParamKind
  annot : Option PyAnnot
  default : Option PyValue

/-- A Python function as `inspect` exposes it to `translate_function_signature`
and `register_function`: `params` in declaration order, `retAnnot` the return
annotation, `qualname` / `fileStem` / `doc` the attributes read by
`register_function`. -/
structure PyFunc where
  name : String
  qualname : String
  fileStem : String
  params : List PyParam
  retAnnot : Option PyAnnot
  doc : Option String

/-- Python `repr` of a default value, as `str(Signature)` renders it. -/
def pyRepr : PyValue → String
  | .pyBool true => "True"
  | .pyBool false => "False"
  | .pyInt n => toString n
  | .pyStr s => "\x27" ++ s ++ "\x27"
  | .pyNone => "None"

/-- Model of `_translate_value` (utils.py lines 28-30): `str(value)` with `True`/`False`
respelled as the C++ literals. -/
def _translate_value : PyValue → String
  | .pyBool true => "true"
  | .pyBool false => "false"
  | .pyInt n => toString n
  | .pyStr s => s
  | .pyNone => "None"

/-- Model of `inspect.formatannotation` over the modelled type universe: the qualified
name, `A | B` for unions, `base[args]` for generics, `Callable[[args], ret]`
(undoing the tree's ret-first flattening). -/
def pyTypeName : PyType → String
  | .noneV => "None"
  | .int => "int"
  | .npInt32 => "numpy.int32"
  | .npInt64 => "numpy.int64"
  | .bool => "bool"
  | .float => "float"
  | .npFloat32 => "numpy.float32"
  | .npFloat64 => "numpy.float64"
  | .complexT => "complex"
  | .npComplex64 => "numpy.complex64"
  | .npComplex128 => "numpy.complex128"
  | .strT => "str"
  | .ndarray => "numpy.ndarray"
  | .bytes => "bytes"
  | .bytearray => "bytearray"
  | .listT => "list"
  | .setT => "set"
  | .frozensetT => "frozenset"
  | .dictT => "dict"
  | .tupleT => "tuple"
  | .sliceT => "slice"
  | .anyT => "typing.Any"
  | .selfT => "typing.Self"
  | .typeT => "type"
  | .unionType => "types.UnionType"
  | .callable => "collections.abc.Callable"
  | .ellipsisType => "..."
  | .noneType => "None"
  | .npDtype => "numpy.dtype"
  | .unknown name => name

mutual

def pyTreeRepr : PyTypeTree → String
  | .mk .unionType subs => joinSep " | " (pyTreeReprList subs)
  | .mk .callable (r :: args) =>
      "collections.abc.Callable[[" ++ joinComma (pyTreeReprList args) ++ "], " ++
        pyTreeRepr r ++ "]"
  | .mk t [] => pyTypeName t
  | .mk t subs => pyTypeName t ++ "[" ++ joinComma (pyTreeReprList subs) ++ "]"

def pyTreeReprList : List PyTypeTree → List String
  | [] => []
  | t :: ts => pyTreeRepr t :: pyTreeReprList ts

end

/-- Model of `repr` of an `Annotated` extra (a `CppQualifier` StrEnum member or a
string literal), used only inside `str(Signature)`. -/
def annotExtraRepr : AnnotExtra → String
  | .qual .Auto => "<CppQualifier.Auto: \x27\x7b\x7d\x27>"
  | .qual .Ref => "<CppQualifier.Ref: \x27\x7b\x7d&\x27>"
  | .qual .CRef => "<CppQualifier.CRef: \x27const \x7b\x7d&\x27>"
  | .qual .RRef => "<CppQualifier.RRef: \x27\x7b\x7d&&\x27>"
  | .qual .Ptr => "<CppQualifier.Ptr: \x27\x7b\x7d*\x27>"
  | .qual .PtrC => "<CppQualifier.PtrC: \x27const \x7b\x7d*\x27>"
  | .qual .CPtr => "<CppQualifier.CPtr: \x27\x7b\x7d* const\x27>"
  | .qual .CPtrC => "<CppQualifier.CPtrC: \x27const \x7b\x7d* const\x27>"
  | .strLit s => "\x27" ++ s ++ "\x27"
  | .otherExtra => "<extra>"

/-- Model of `inspect.formatannotation` of a full annotation expression. -/
def pyAnnotRepr : PyAnnot → String
  | .plain t => pyTreeRepr t
  | .annotated base extras =>
      "typing.Annotated[" ++ pyTreeRepr base ++ ", " ++
        joinComma (extras.map annotExtraRepr) ++ "]"

/-- CPython `inspect.Parameter.__str__`: `name`, `: annotation`, default with
(` = ` when annotated, `=` otherwise), and the `*` / `**` kind prefix. -/
def pyParamStr (p : PyParam) : String :=
  let f := p.name
  let f := match p.annot with
    | some a => f ++ ": " ++ pyAnnotRepr a
    | none => f
  let f := match p.default, p.annot with
    | some d, some _ => f ++ " = " ++ pyRepr d
    | some d, none => f ++ "=" ++ pyRepr d
    | none, _ => f
  match p.kind with
  | .varPositional => "*" ++ f
  | .varKeyword => "**" ++ f
  | _ => f

/-- The parameter-list entries of CPython `inspect.Signature.__str__`:
`/` is emitted after the positional-only run, `*` before the first
keyword-only parameter when no `*args` is present. -/
def strSigEntries : Bool → Bool → List PyParam → List String
  | rposo, _, [] => if rposo then ["/"] else []
  | rposo, rkwo, p :: ps =>
    let sep1 : List String × Bool :=
      if p.kind = .positionalOnly then ([], true)
      else if rposo then (["/"], false)
      else ([], rposo)
    let sep2 : List String × Bool :=
      if p.kind = .varPositional then ([], false)
      else if p.kind = .keywordOnly ∧ rkwo then (["*"], false)
      else ([], rkwo)
    sep1.1 ++ sep2.1 ++ [pyParamStr p] ++ strSigEntries sep1.2 sep2.2 ps

/-- CPython `str(inspect.Signature)`, as consumed by utils.py line 59. -/
def strSig (f : PyFunc) : String :=
  "(" ++ joinComma (strSigEntries false true f.params) ++ ")" ++
    (match f.retAnnot with
     | some a => " -> " ++ pyAnnotRepr a
     | none => "")

/-- Model of `inspect.getfullargspec(func).varargs`. -/
def pyVarargs (f : PyFunc) : Option String :=
  (f.params.find? (fun p => match p.kind with
    | .varPositional => true
    | _ => false)).map PyParam.name

/-- Model of `inspect.getfullargspec(func).varkw`. -/
def pyVarkw (f : PyFunc) : Option String :=
  (f.params.find? (fun p => match p.kind with
    | .varKeyword => true
    | _ => false)).map PyParam.name

/-- Model of `func.__annotations__.items()`: the annotated parameters in declaration
order followed by the `"return"` entry when the return is annotated. -/
def annotItems (f : PyFunc) : List (String × PyAnnot) :=
  (f.params.filterMap (fun p => p.annot.map (fun a => (p.name, a)))) ++
    (match f.retAnnot with
     | some a => [("return", a)]
     | none => [])

/-- The `defaults` dict of utils.py line 62. -/
def pyDefaults (f : PyFunc) : List (String × PyValue) :=
  f.params.filterMap (fun p => p.default.map (fun d => (p.name, d)))

/-- Python `list.index` guarded by `in` (utils.py lines 60-61). -/
def pyIndex (s : String) : List String → Option Nat
  | [] => none
  | x :: xs => if x = s then some 0 else (pyIndex s xs).map (· + 1)

/-- Python `list.insert(i, x)` (clamping at the end). -/
def pyInsert (l : List String) (i : Nat) (x : String) : List String :=
  l.take i ++ [x] ++ l.drop i

/-- The `py::arg("name")` binding entry, with the rendered default appended
when the parameter has one. -/
def mkArgAnn (n : String) (dfs : List (String × PyValue)) : String :=
  "py::arg(\"" ++ n ++ "\")" ++
    (match dfs.lookup n with
     | some dv => "=" ++ _translate_value dv
     | none => "")

/-- The per-annotation loop of `translate_function_signature`
(utils.py lines 65-84), returning `(arg_defs, binding entries, headers, ret)`.
Every annotation — variadic parameters included — goes through
`translate_type` and contributes its headers; variadic parameters render as
the fixed `py::args` / `const py::kwargs&` tokens and produce no binding
entry. -/
def transItems (va vk : Option String) (dfs : List (String × PyValue)) :
    List (String × PyAnnot) →
    Except Err (List String × List String × List String × Option String)
  | [] => .ok ([], [], [], none)
  | (var_name, type_) :: rest =>
    match translate_type type_ with
    | .error e => .error e
    | .ok cpptype =>
      let hs := CppTypeTree.headers header_requirements cpptype
      match transItems va vk dfs rest with
      | .error e => .error e
      | .ok (ds, anns, hs2, ret2) =>
        if var_name = "return" then
          .ok (ds, anns, hs ++ hs2, ret2 <|> some (CppTypeTree.repr cpptype))
        else
          let arg_def :=
            if va = some var_name then "py::args " ++ var_name
            else if vk = some var_name then "const py::kwargs& " ++ var_name
            else CppTypeTree.repr cpptype ++ " " ++ var_name
          let arg_def := match dfs.lookup var_name with
            | some dv => arg_def ++ "=" ++ _translate_value dv
            | none => arg_def
          let anns2 :=
            if va = some var_name ∨ vk = some var_name then anns
            else mkArgAnn var_name dfs :: anns
          .ok (arg_def :: ds, anns2, hs ++ hs2, ret2)

/-- Model of `translate_function_signature` (utils.py lines 49-90): boundary-marker
indices recovered from `str(sig)` via `_splitargs`, the per-annotation loop,
marker insertion (`/` first, then `*`), and assembly of the lambda header. -/
def translate_function_signature (f : PyFunc) :
    Except Err (String × List String × List String) :=
  let raw_sig := _splitargs (strSig f)
  let pos_only := pyIndex "/" raw_sig
  let kw_only := pyIndex "*" raw_sig
  let dfs := pyDefaults f
  match transItems (pyVarargs f) (pyVarkw f) dfs (annotItems f) with
  | .error e => .error e
  | .ok (ds, anns, hs, ret) =>
    let anns := match pos_only with
      | some i => pyInsert anns i "py::pos_only()"
      | none => anns
    let anns := match kw_only with
      | some i => pyInsert anns i "py::kw_only()"
      | none => anns
    let arrow := match ret with
      | some r => if r = "" then "" else " -> " ++ r
      | none => ""
    .ok ("[](" ++ joinComma ds ++ ")" ++ arrow, anns, hs)

/-- Model of `get_function_scope` (utils.py lines 93-98). -/
def get_function_scope (f : PyFunc) : List String :=
  ((f.qualname.splitOn ".").dropLast).filter (· ≠ "<locals>")

/-- Model of `_check_annotations` (compile.py lines 138-149): one aggregated
`AnnotationError` naming every unannotated position. -/
def _check_annots (f : PyFunc) : Except Err Unit :=
  let missing := joinComma ((f.params.filter (fun p => p.annot.isNone)).map PyParam.name)
  let missing := if f.retAnnot.isNone then missing ++ ", (return)" else missing
  if missing ≠ "" then
    .error (.annotError ("Function " ++ f.name ++ " has missing annotations: " ++ missing))
  else .ok ()

/-- Model of `ReturnValuePolicy` (xenoform.cppmodule, not under src/).
Modelled from the spec: the per-function return-ownership policy recorded in
the binding metadata; its values are opaque to the claims. -/
inductive ReturnValuePolicy where
  | Automatic | AutomaticReference | Copy | Move | Reference | ReferenceInternal | TakeOwnership
deriving DecidableEq, Repr

/-- The keyword arguments `register_function` passes to `FunctionSpec`
(compile.py lines 224-231). `FunctionSpec` itself lives in
xenoform.cppmodule (not under src/); only the values recorded here matter
to the claims. -/
structure FunctionSpec where
  name : String
  body : String
  argAnns : String
  scope : List String
  return_value_policy : ReturnValuePolicy
  help : Option String
deriving Repr

/-- The argument bundle of one `ModuleSpec.add_function` call
(compile.py lines 233-241). -/
structure AddFunctionArgs where
  function_spec : FunctionSpec
  headers : List String
  include_paths : List String
  define_macros : List String
  extra_compile_args : List String
  extra_link_args : List String
  cxx_std : Int
deriving Repr

/-- The shared module accumulator `_module_registry` (compile.py line 31).
`ModuleSpec.add_function` is defined in xenoform.cppmodule (not under src/);
the accumulator is modelled as the ordered log of `add_function` calls,
keyed by module name, which is everything compile.py observes of it. -/
def Registry := List (String × AddFunctionArgs)

/-- The keyword options of the `compile` decorator factory
(compile.py lines 159-171). -/
structure CompileOpts where
  vectorise : Bool
  define_macros : List String
  extra_includes : List String
  extra_include_paths : List String
  extra_compile_args : List String
  extra_link_args : List String
  return_value_policy : ReturnValuePolicy
  cxx_std : Int
  help : Option String

def defaultOpts : CompileOpts :=
  { vectorise := false, define_macros := [], extra_includes := [],
    extra_include_paths := [], extra_compile_args := [], extra_link_args := [],
    return_value_policy := .Automatic, cxx_std := 20, help := none }

/-- Model of `register_function` (compile.py lines 195-249): scope, annotation check,
signature translation, then — only if no step raised — one `add_function`
call appended to the accumulator. The returned pair carries the raised
exception or `()` together with the (possibly unchanged) accumulator. -/
def register_function (opts : CompileOpts) (func : PyFunc) (reg : Registry) :
    Except Err Unit × Registry :=
  let scope := get_function_scope func
  match _check_annots func with
  | .error e => (.error e, reg)
  | .ok _ =>
    match translate_function_signature func with
    | .error e => (.error e, reg)
    | .ok (sig, args, headers) =>
      let module_name := func.fileStem
      let function_body := sig ++ " \x7b" ++ (func.doc.getD "") ++ "\x7d"
      let (function_body, headers) :=
        if opts.vectorise then
          ("py::vectorize(" ++ function_body ++ ")", headers ++ ["<pybind11/numpy.h>"])
        else (function_body, headers)
      let arg_defs := String.join (args.map (fun kwarg => ", " ++ kwarg))
      let fs : FunctionSpec :=
        { name := func.name, body := function_body, argAnns := arg_defs,
          scope := scope, return_value_policy := opts.return_value_policy,
          help := opts.help }
      (.ok (), List.append reg [(module_name,
        { function_spec := fs,
          headers := headers ++ opts.extra_includes,
          include_paths := opts.extra_include_paths,
          define_macros := opts.define_macros,
          extra_compile_args := opts.extra_compile_args,
          extra_link_args := opts.extra_link_args,
          cxx_std := opts.cxx_std })])

/-- A loaded extension-module object; `objId` stands for Python object
identity, so equality of `Module` values is "same loaded module object". -/
structure ExtModule where
  objId : Nat
deriving DecidableEq, Repr

/-- The observable side effects of one `_check_build_fetch_module_impl` run:
whether `module.cpp` was written and whether the toolchain (`setup`) ran. -/
structure Effects where
  wroteSource : Bool
  ranToolchain : Bool
deriving DecidableEq, Repr

/-- The external world one `_check_build_fetch_module_impl` call interacts
with: the isolated subprocess checksum read (`None` when the artifact is
missing or unimportable), the freshly computed `make_source` hash
(`ModuleSpec.make_source` lives in xenoform.cppmodule, not under src/; the
spec §3 makes it a deterministic digest of the rendered text, so it is
carried as an opaque string), the toolchain outcome if invoked, and the
modules an import would load with and without a rebuild. -/
structure World where
  checksum : Option String
  hashval : String
  buildOk : Bool
  buildDiag : String
  builtModule : ExtModule
  existingModule : ExtModule
deriving Repr

/-- Model of `_check_build_fetch_module_impl` (compile.py lines 59-124): compute
`exists`/`outdated` from the isolated checksum (a falsy checksum means
missing, a mismatch means outdated), rebuild — writing `module.cpp` and
invoking the toolchain, surfacing failure as `CompilationError` — exactly
when `outdated or not exists`, then import the (new or existing) module. -/
def _check_build_fetch_module_impl (w : World) : Except Err ExtModule × Effects :=
  let eo : Bool × Bool :=
    match w.checksum with
    | none => (false, false)
    | some s => if s = "" then (false, false)
                else if s ≠ w.hashval then (true, true)
                else (true, false)
  if eo.2 ∨ ¬ eo.1 then
    if w.buildOk then (.ok w.builtModule, ⟨true, true⟩)
    else (.error (.compilationError w.buildDiag), ⟨true, true⟩)
  else (.ok w.existingModule, ⟨false, false⟩)

/-- The per-process state of `_get_module`'s `functools.cache`
(compile.py line 127) together with a counter of how many times the
check/build/fetch sequence has run. -/
structure ProcState where
  memo : List (String × ExtModule)
  implRuns : Nat
deriving Repr

/-- Model of `_get_module` (compile.py lines 127-131): `functools.cache` semantics —
a hit returns the memoized module untouched; a miss runs the impl, records
the result only on success (exceptions are not cached), and propagates. -/
def _get_module (name : String) (w : World) (s : ProcState) :
    Except Err ExtModule × ProcState :=
  match s.memo.lookup name with
  | some m => (.ok m, s)
  | none =>
    match (_check_build_fetch_module_impl w).1 with
    | .ok m => (.ok m, ⟨(name, m) :: s.memo, s.implRuns + 1⟩)
    | .error e => (.error e, ⟨s.memo, s.implRuns + 1⟩)

/-- A sequence of `_get_module` requests for one module name, each against
its own world (the on-disk state may change arbitrarily between calls). -/
def runCalls (name : String) : List World → ProcState → List (Except Err ExtModule) × ProcState
  | [], s => ([], s)
  | w :: ws, s =>
    ((_get_module name w s).1 :: (runCalls name ws (_get_module name w s).2).1,
     (runCalls name ws (_get_module name w s).2).2)

/-- The signature `(a, b, /, c, *, d)` of spec §8.5, with `int` annotations
throughout. -/
def exC5 : PyFunc :=
  { name := "f", qualname := "f", fileStem := "mod",
    params := [
      ⟨"a", .positionalOnly, some (.plain (.mk .int [])), none⟩,
      ⟨"b", .positionalOnly, some (.plain (.mk .int [])), none⟩,
      ⟨"c", .positionalOrKeyword, some (.plain (.mk .int [])), none⟩,
      ⟨"d", .keywordOnly, some (.plain (.mk .int [])), none⟩],
    retAnnot := some (.plain (.mk .int [])), doc := some "return a + b + c + d;" }

/-- Model of `def g(*args: str) -> None`: a variadic-positional parameter whose
annotation requires a header. -/
def exC4 : PyFunc :=
  { name := "g", qualname := "g", fileStem := "mod",
    params := [⟨"args", .varPositional, some (.plain (.mk .strT [])), none⟩],
    retAnnot := some (.plain (.mk .noneV [])), doc := none }

/-- Model of `def g2(*args: Foo) -> None` for an unmapped class `Foo`. -/
def exC4bad : PyFunc :=
  { name := "g2", qualname := "g2", fileStem := "mod",
    params := [⟨"args", .varPositional, some (.plain (.mk (.unknown "Foo") [])), none⟩],
    retAnnot := some (.plain (.mk .noneV [])), doc := none }

/-- Model of `def f(x: T) -> None` for a parameter type `T` supplied by the caller. -/
def fBadC6 (pt : PyType) : PyFunc :=
  { name := "f", qualname := "f", fileStem := "mod",
    params := [⟨"x", .positionalOrKeyword, some (.plain (.mk pt [])), none⟩],
    retAnnot := some (.plain (.mk .noneV [])), doc := some "return;" }

/-- A world whose on-disk artifact's embedded checksum matches the freshly
computed hash. -/
def wFresh : World :=
  { checksum := some "abc123", hashval := "abc123", buildOk := true,
    buildDiag := "", builtModule := ⟨1⟩, existingModule := ⟨0⟩ }

/-- A world with no artifact on disk and a toolchain that rejects the
generated source. -/
def wFail : World :=
  { checksum := none, hashval := "abc123", buildOk := false,
    buildDiag := "compiler says no", builtModule := ⟨1⟩, existingModule := ⟨0⟩ }

/-- A world with no artifact on disk and a toolchain that accepts. -/
def wBuildOk : World :=
  { checksum := none, hashval := "abc123", buildOk := true,
    buildDiag := "", builtModule := ⟨7⟩, existingModule := ⟨0⟩ }

/-- Model of `Annotated[list[int], ""]`: an override annotation whose literal is the
empty string. -/
def exC3empty : PyAnnot := .annotated (.mk .listT [.mk .int []]) [.strLit ""]

/-- Model of `Annotated[list[int], "custom_list"]`, the spec §8.3 example. -/
def exC3custom : PyAnnot := .annotated (.mk .listT [.mk .int []]) [.strLit "custom_list"]
/-- A memo hit returns the memoized module and leaves the state untouched. -/
theorem get_module_hit (name : String) (w : World) (s : ProcState) (m : ExtModule)
    (h : s.memo.lookup name = some m) : _get_module name w s = (.ok m, s) := by
  unfold _get_module
  rw [h]

/-- Once the memo holds `m` for `name`, every further call returns `m` and
never re-runs the check/build sequence. -/
theorem run_calls_hit (name : String) (m : ExtModule) :
    ∀ (ws : List World) (s : ProcState), s.memo.lookup name = some m →
    runCalls name ws s = (ws.map (fun _ => Except.ok m), s) := by
  intro ws
  induction ws with
  | nil => intro s _; rfl
  | cons w ws ih =>
    intro s h
    unfold runCalls
    rw [get_module_hit name w s m h, ih s h]
    rfl

/-- C2: within one process, once the first request for a module name
succeeds, every one of the N requests returns the very same loaded module
object, at most one check-and-possibly-build sequence runs in total, and
later changes to the on-disk state (the per-call worlds) are never
consulted. -/
theorem build_once_per_process (name : String) (w1 : World) (ws : List World)
    (s0 : ProcState) (m : ExtModule)
    (h : (_get_module name w1 s0).1 = .ok m) :
    (runCalls name (w1 :: ws) s0).1 = (w1 :: ws).map (fun _ => Except.ok m) ∧
    (runCalls name (w1 :: ws) s0).2.implRuns ≤ s0.implRuns + 1 := by
  cases hm : s0.memo.lookup name with
  | some m' =>
    have h1 : _get_module name w1 s0 = (.ok m', s0) := get_module_hit name w1 s0 m' hm
    have hmm : m' = m := by
      rw [h1] at h
      exact Except.ok.inj h
    subst hmm
    unfold runCalls
    rw [h1, run_calls_hit name m' ws s0 hm]
    simp
  | none =>
    have h2 : _get_module name w1 s0 = (.ok m, ⟨(name, m) :: s0.memo, s0.implRuns + 1⟩) := by
      unfold _get_module at h ⊢
      rw [hm] at h ⊢
      cases hi : (_check_build_fetch_module_impl w1).1 with
      | error e => rw [hi] at h; simp at h
      | ok m'' =>
        rw [hi] at h
        simp only at h
        rw [Except.ok.inj h]
    unfold runCalls
    rw [h2]
    have hlook : (ProcState.mk ((name, m) :: s0.memo) (s0.implRuns + 1)).memo.lookup name
        = some m := by simp [List.lookup]
    rw [run_calls_hit name m ws _ hlook]
    simp

/-- C2 witness: three requests, the first of which builds; all return the
same module object and the sequence runs once. -/
theorem build_once_per_process_witness :
    (_get_module "mod" wBuildOk ⟨[], 0⟩).1 = .ok ⟨7⟩ ∧
    (runCalls "mod" [wBuildOk, wFail, wFresh] ⟨[], 0⟩).1 =
      [Except.ok ⟨7⟩, Except.ok ⟨7⟩, Except.ok ⟨7⟩] ∧
    (runCalls "mod" [wBuildOk, wFail, wFresh] ⟨[], 0⟩).2.implRuns ≤ 0 + 1 := by
  have hh := build_once_per_process "mod" wBuildOk [wFail, wFresh] ⟨[], 0⟩ ⟨7⟩ (by rfl)
  exact ⟨by rfl, hh.1, hh.2⟩

/-- C7: when the isolated check reads a checksum equal to the freshly
computed (non-empty) hash, the build cache writes no source file, does not
invoke the toolchain, and loads the existing artifact directly. -/
theorem fresh_skips_rebuild (w : World)
    (h1 : w.checksum = some w.hashval) (h2 : w.hashval ≠ "") :
    _check_build_fetch_module_impl w =
      (.ok w.existingModule, { wroteSource := false, ranToolchain := false }) := by
  unfold _check_build_fetch_module_impl
  rw [h1]
  simp [h2]

/-- C7 witness. -/
theorem fresh_skips_rebuild_witness :
    wFresh.checksum = some wFresh.hashval ∧ wFresh.hashval ≠ "" ∧
    _check_build_fetch_module_impl wFresh =
      (.ok wFresh.existingModule, { wroteSource := false, ranToolchain := false }) :=
  ⟨rfl, by decide, fresh_skips_rebuild wFresh rfl (by decide)⟩

/-- C8: a failing check/build/load leaves the memo without an entry for the
module name and bumps only the run counter, so the next request re-runs the
check/build sequence (its outcome is that of the fresh run, not a cached
failure). -/
theorem failure_not_memoized (name : String) (w1 w2 : World) (s0 : ProcState) (e : Err)
    (h0 : s0.memo.lookup name = none)
    (h1 : (_get_module name w1 s0).1 = .error e) :
    (_get_module name w1 s0).2.memo = s0.memo ∧
    (_get_module name w1 s0).2.implRuns = s0.implRuns + 1 ∧
    (_get_module name w2 (_get_module name w1 s0).2).1 =
      (_check_build_fetch_module_impl w2).1 ∧
    (_get_module name w2 (_get_module name w1 s0).2).2.implRuns = s0.implRuns + 2 := by
  have h2 : _get_module name w1 s0 = (.error e, ⟨s0.memo, s0.implRuns + 1⟩) := by
    unfold _get_module at h1 ⊢
    rw [h0] at h1 ⊢
    cases hi : (_check_build_fetch_module_impl w1).1 with
    | ok m => rw [hi] at h1; simp at h1
    | error e' =>
      rw [hi] at h1
      simp only at h1
      rw [Except.error.inj h1]
  rw [h2]
  refine ⟨rfl, rfl, ?_, ?_⟩ <;>
  · unfold _get_module
    simp only
    rw [h0]
    cases hi2 : (_check_build_fetch_module_impl w2).1 <;> simp [hi2]

/-- C8 witness: the toolchain rejects the source twice; neither failure is
cached and the sequence runs once per request. -/
theorem failure_not_memoized_witness :
    (⟨[], 0⟩ : ProcState).memo.lookup "mod" = none ∧
    (_get_module "mod" wFail ⟨[], 0⟩).1 = .error (.compilationError "compiler says no") ∧
    (_get_module "mod" wFail (_get_module "mod" wFail ⟨[], 0⟩).2).1 =
      (_check_build_fetch_module_impl wFail).1 ∧
    (_get_module "mod" wFail (_get_module "mod" wFail ⟨[], 0⟩).2).2.implRuns = 0 + 2 := by
  have hh := failure_not_memoized "mod" wFail wFail ⟨[], 0⟩
    (.compilationError "compiler says no") (by rfl) (by rfl)
  exact ⟨rfl, by rfl, hh.2.2.1, hh.2.2.2⟩

/-- C10: the ndarray unwrap reads `tree.subtypes[1].subtypes[0]` unguarded:
a bare ndarray annotation (no type arguments, or no dtype argument, or a
dtype with no element) fails with `IndexError`, not with the documented
`CppTypeError`; when shape and dtype-with-element are present the unwrap
is defined and translates exactly the dtype's first sub-argument. -/
theorem ndarray_unwrap_unguarded :
    CppTypeTree.init (.mk .ndarray []) none none = .error .indexError ∧
    (∀ msg, CppTypeTree.init (.mk .ndarray []) none none ≠ .error (.cppTypeError msg)) ∧
    (∀ x, CppTypeTree.init (.mk .ndarray [x]) none none = .error .indexError) ∧
    (∀ sh dtty rest, CppTypeTree.init (.mk .ndarray [sh, .mk dtty []] ) none none
        = .error .indexError ∧
      ∀ el rest2 over qual,
        CppTypeTree.init (.mk .ndarray (sh :: .mk dtty (el :: rest2) :: rest)) over qual =
          (CppTypeTree.init el none none).map
            (fun c => .mk (some "py::array_t") over qual [c])) := by
  refine ⟨by rfl, ?_, ?_, ?_⟩
  · intro msg
    rw [show CppTypeTree.init (.mk .ndarray []) none none = .error .indexError from rfl]
    simp
  · intro x
    simp [CppTypeTree.init, DEFAULT_TYPE_MAPPING, falsyOptStr]
  · intro sh dtty rest
    constructor
    · simp [CppTypeTree.init, DEFAULT_TYPE_MAPPING, falsyOptStr]
    · intro el rest2 over qual
      simp only [CppTypeTree.init]
      cases h : CppTypeTree.init el none none with
      | error e => simp [DEFAULT_TYPE_MAPPING, falsyOptStr, h, Except.map]
      | ok c => simp [DEFAULT_TYPE_MAPPING, falsyOptStr, h, Except.map]

/-- C10 witness: a well-formed `np.ndarray[tuple[int], np.dtype[np.float64]]`
annotation translates the element type. -/
theorem ndarray_unwrap_unguarded_witness :
    CppTypeTree.init (.mk .ndarray [.mk .tupleT [.mk .int []],
        .mk .npDtype [.mk .npFloat64 []]]) none none =
      (CppTypeTree.init (.mk .npFloat64 []) none none).map
        (fun c => .mk (some "py::array_t") none none [c]) :=
  (ndarray_unwrap_unguarded.2.2.2 (.mk .tupleT [.mk .int []]) .npDtype []).2
    (.mk .npFloat64 []) [] none none

/-- C6: a type with no registered base mapping and no override raises
`CppTypeError` from the translator (whatever the qualifier), and a function
registration that hits this error returns the shared module accumulator
exactly as it was — so registrations before or after are unaffected. -/
theorem unmapped_type_registers_nothing (pt : PyType)
    (h : DEFAULT_TYPE_MAPPING pt = none) :
    (∀ qual, CppTypeTree.init (.mk pt []) none qual =
      .error (.cppTypeError (unmappedMsg pt))) ∧
    (∀ opts reg, register_function opts (fBadC6 pt) reg =
      (.error (.cppTypeError (unmappedMsg pt)), reg)) := by
  have hinit : ∀ qual, CppTypeTree.init (.mk pt []) none qual =
      .error (.cppTypeError (unmappedMsg pt)) := by
    intro qual
    simp [CppTypeTree.init, h, falsyOptStr]
  refine ⟨hinit, ?_⟩
  intro opts reg
  have htr : translate_function_signature (fBadC6 pt) =
      .error (.cppTypeError (unmappedMsg pt)) := by
    have hti : transItems (pyVarargs (fBadC6 pt)) (pyVarkw (fBadC6 pt))
        (pyDefaults (fBadC6 pt)) (annotItems (fBadC6 pt)) =
        .error (.cppTypeError (unmappedMsg pt)) := by
      have : translate_type (.plain (.mk pt [])) =
          .error (.cppTypeError (unmappedMsg pt)) := by
        simp [translate_type, parse_annot, hinit none]
      simp [fBadC6, annotItems, transItems, this]
    simp only [translate_function_signature]
    rw [hti]
  have hchk : _check_annots (fBadC6 pt) = .ok () := by rfl
  simp only [register_function]
  rw [hchk, htr]

/-- C6 witness: an unmapped class `Foo` used as a parameter annotation. -/
theorem unmapped_type_registers_nothing_witness :
    DEFAULT_TYPE_MAPPING (.unknown "Foo") = none ∧
    CppTypeTree.init (.mk (.unknown "Foo") []) none none =
      .error (.cppTypeError (unmappedMsg (.unknown "Foo"))) ∧
    register_function defaultOpts (fBadC6 (.unknown "Foo")) [] =
      (.error (.cppTypeError (unmappedMsg (.unknown "Foo"))), []) :=
  ⟨rfl, (unmapped_type_registers_nothing (.unknown "Foo") rfl).1 none,
    (unmapped_type_registers_nothing (.unknown "Foo") rfl).2 defaultOpts []⟩
/-- Every successful `CppTypeTree.init` stores the override argument
unchanged in the resulting node. -/
theorem init_keeps_override (t : PyTypeTree) (over : Option String)
    (qual : Option CppQualifier) (c : CppTypeTree)
    (h : CppTypeTree.init t over qual = .ok c) : c.ov = over := by
  cases t with
  | mk tt ts =>
    unfold CppTypeTree.init at h
    simp only [] at h
    split at h
    · exact absurd h (by simp)
    · split at h
      · exact absurd h (by simp)
      · split at h
        · split at h <;> (cases h; rfl)
        · cases h; rfl

/-- C3 (amended): a non-empty override literal renders verbatim — the
qualifier is not reapplied and neither base nor subtypes appear — and the
translated node reports no headers, whatever the header mapping. -/
theorem override_renders_verbatim (t : PyTypeTree) (s : String)
    (qual : Option CppQualifier) (c : CppTypeTree)
    (hs : s ≠ "") (h : CppTypeTree.init t (some s) qual = .ok c) :
    CppTypeTree.repr c = s ∧ ∀ mapping, CppTypeTree.headers mapping c = [] := by
  have hov : c.ov = some s := init_keeps_override t (some s) qual c h
  have hfalsy : falsyOptStr (some s) = false := by
    simp [falsyOptStr, hs]
  cases c with
  | mk ty over qq subs =>
    simp only [CppTypeTree.ov] at hov
    subst hov
    constructor
    · unfold CppTypeTree.repr
      rw [hfalsy]
      simp
    · intro mapping
      unfold CppTypeTree.headers
      rw [hfalsy]
      simp

/-- C3 witness: `Annotated[list[int], "custom_list"]` renders as exactly
`custom_list` with no headers. -/
theorem override_renders_verbatim_witness :
    ("custom_list" : String) ≠ "" ∧
    CppTypeTree.init (.mk .listT [.mk .int []]) (some "custom_list") none =
      .ok (.mk (some "std::vector") (some "custom_list") none [.mk (some "int") none none []]) ∧
    CppTypeTree.repr (.mk (some "std::vector") (some "custom_list") none
      [.mk (some "int") none none []]) = "custom_list" ∧
    CppTypeTree.headers header_requirements (.mk (some "std::vector")
      (some "custom_list") none [.mk (some "int") none none []]) = [] := by
  have hh := override_renders_verbatim (.mk .listT [.mk .int []]) "custom_list" none
    (.mk (some "std::vector") (some "custom_list") none [.mk (some "int") none none []])
    (by decide) (by rfl)
  exact ⟨by decide, by rfl, hh.1, hh.2 header_requirements⟩

/-- C3 counterexample: `Annotated[list[int], ""]` carries an override
annotation, yet the empty override is falsy in Python, so the rendered text
is the base rendering (not the override literal) and the header list is
non-empty. -/
theorem override_empty_ignored :
    translate_type exC3empty =
      .ok (.mk (some "std::vector") (some "") none [.mk (some "int") none none []]) ∧
    CppTypeTree.repr (.mk (some "std::vector") (some "") none
      [.mk (some "int") none none []]) = "std::vector<int>" ∧
    ("std::vector<int>" : String) ≠ "" ∧
    CppTypeTree.headers header_requirements (.mk (some "std::vector") (some "") none
      [.mk (some "int") none none []]) = ["<pybind11/stl.h>"] ∧
    (["<pybind11/stl.h>"] : List String) ≠ [] := by
  exact ⟨by rfl, by rfl, by decide, by rfl, by decide⟩
theorem initList_skip_none (t : PyTypeTree) (ts : List PyTypeTree)
    (h : PyTypeTree.type t = .noneType) :
    CppTypeTree.initList (t :: ts) = CppTypeTree.initList ts := by
  conv_lhs => rw [CppTypeTree.initList]
  rw [if_pos h]

theorem initList_cons_ok (t : PyTypeTree) (ts : List PyTypeTree)
    (c : CppTypeTree) (cs : List CppTypeTree)
    (hne : PyTypeTree.type t ≠ .noneType)
    (h1 : CppTypeTree.init t none none = .ok c)
    (h2 : CppTypeTree.initList ts = .ok cs) :
    CppTypeTree.initList (t :: ts) = .ok (c :: cs) := by
  conv_lhs => rw [CppTypeTree.initList]
  rw [if_neg hne, h1, h2]

theorem init_union (subs : List PyTypeTree) (st : List CppTypeTree)
    (h : CppTypeTree.initList subs = .ok st) :
    CppTypeTree.init (.mk .unionType subs) none none =
      if (st.length : Int) = (subs.length : Int) - 1 then
        if st.length > 1 then
          .ok (.mk (some "std::optional") none none
            [.mk (some "std::variant") none none st])
        else .ok (.mk (some "std::optional") none none st)
      else .ok (.mk (some "std::variant") none none st) := by
  unfold CppTypeTree.init
  simp [DEFAULT_TYPE_MAPPING, falsyOptStr, h]

theorem repr_node_single (base : String) (hfn : base ≠ "std::function")
    (x : CppTypeTree) :
    CppTypeTree.repr (.mk (some base) none none [x]) =
      base ++ "<" ++ CppTypeTree.repr x ++ ">" := by
  conv_lhs => rw [CppTypeTree.repr]
  simp [falsyOptStr, CppTypeTree.reprList, joinComma, joinSep, hfn, String.append_assoc]

theorem repr_node_pair (base : String) (hfn : base ≠ "std::function")
    (x y : CppTypeTree) :
    CppTypeTree.repr (.mk (some base) none none [x, y]) =
      base ++ "<" ++ CppTypeTree.repr x ++ ", " ++ CppTypeTree.repr y ++ ">" := by
  conv_lhs => rw [CppTypeTree.repr]
  simp [falsyOptStr, CppTypeTree.reprList, joinComma, joinSep, hfn, String.append_assoc]

/-- C1: union flattening. For translated members `A`, `B` (neither the none
marker): `A | None` becomes `optional<A>`; `A | B | None` becomes
`optional<variant<A, B>>` (the variant wrapped once, with override and
qualifier cleared on the inner node); `A | B` with no none member stays
`variant<A, B>`. The constructed trees show the flattening applied exactly
once per union node. -/
theorem union_none_flattening (a b : PyTypeTree) (a' b' : CppTypeTree)
    (ha : PyTypeTree.type a ≠ .noneType) (hb : PyTypeTree.type b ≠ .noneType)
    (hta : CppTypeTree.init a none none = .ok a')
    (htb : CppTypeTree.init b none none = .ok b') :
    (CppTypeTree.init (.mk .unionType [a, .mk .noneType []]) none none =
      .ok (.mk (some "std::optional") none none [a']) ∧
     CppTypeTree.repr (.mk (some "std::optional") none none [a']) =
      "std::optional<" ++ CppTypeTree.repr a' ++ ">") ∧
    (CppTypeTree.init (.mk .unionType [a, b, .mk .noneType []]) none none =
      .ok (.mk (some "std::optional") none none
        [.mk (some "std::variant") none none [a', b']]) ∧
     CppTypeTree.repr (.mk (some "std::optional") none none
        [.mk (some "std::variant") none none [a', b']]) =
      "std::optional<std::variant<" ++ CppTypeTree.repr a' ++ ", " ++
        CppTypeTree.repr b' ++ ">>") ∧
    (CppTypeTree.init (.mk .unionType [a, b]) none none =
      .ok (.mk (some "std::variant") none none [a', b']) ∧
     CppTypeTree.repr (.mk (some "std::variant") none none [a', b']) =
      "std::variant<" ++ CppTypeTree.repr a' ++ ", " ++ CppTypeTree.repr b' ++ ">") := by
  have hnt : CppTypeTree.initList [PyTypeTree.mk .noneType []] = .ok [] := by
    rw [initList_skip_none (.mk .noneType []) [] rfl]
    rfl
  have h1 : CppTypeTree.initList [a, .mk .noneType []] = .ok [a'] :=
    initList_cons_ok a _ a' [] ha hta hnt
  have h2 : CppTypeTree.initList [a, b, .mk .noneType []] = .ok [a', b'] :=
    initList_cons_ok a _ a' [b'] ha hta (initList_cons_ok b _ b' [] hb htb hnt)
  have h3 : CppTypeTree.initList [a, b] = .ok [a', b'] :=
    initList_cons_ok a _ a' [b'] ha hta (initList_cons_ok b _ b' [] hb htb rfl)
  refine ⟨⟨?_, ?_⟩, ⟨?_, ?_⟩, ⟨?_, ?_⟩⟩
  · rw [init_union _ _ h1]
    norm_num
  · exact repr_node_single "std::optional" (by decide) a'
  · rw [init_union _ _ h2]
    norm_num
  · rw [repr_node_single "std::optional" (by decide) _,
      repr_node_pair "std::variant" (by decide) a' b']
    simp only [String.append_assoc]
    rw [show ((">" : String) ++ ">") = ">>" from rfl]
    conv_lhs => rw [← String.append_assoc, ← String.append_assoc, ← String.append_assoc]
    rfl
  · rw [init_union _ _ h3]
    norm_num
  · exact repr_node_pair "std::variant" (by decide) a' b'

/-- C1 witness: `int | None`, `int | float | None` and `int | float`. -/
theorem union_none_flattening_witness :
    CppTypeTree.init (.mk .unionType [.mk .int [], .mk .noneType []]) none none =
      .ok (.mk (some "std::optional") none none [.mk (some "int") none none []]) ∧
    CppTypeTree.init (.mk .unionType [.mk .int [], .mk .float [], .mk .noneType []])
        none none =
      .ok (.mk (some "std::optional") none none
        [.mk (some "std::variant") none none
          [.mk (some "int") none none [], .mk (some "double") none none []]]) ∧
    CppTypeTree.repr (.mk (some "std::optional") none none
        [.mk (some "std::variant") none none
          [.mk (some "int") none none [], .mk (some "double") none none []]]) =
      "std::optional<std::variant<int, double>>" ∧
    CppTypeTree.init (.mk .unionType [.mk .int [], .mk .float []]) none none =
      .ok (.mk (some "std::variant") none none
        [.mk (some "int") none none [], .mk (some "double") none none []]) := by
  have hh := union_none_flattening (.mk .int []) (.mk .float [])
    (.mk (some "int") none none []) (.mk (some "double") none none [])
    (by decide) (by decide) (by rfl) (by rfl)
  exact ⟨hh.1.1, hh.2.1.1, by rfl, hh.2.2.1⟩

/-- C5: the signature `(a, b, /, c, *, d)` produces the binding-annotation
list `[arg(a), arg(b), pos_only, arg(c), kw_only, arg(d)]`: both markers are
inserted at their recorded `str(sig)` indices, `/` first and `*` second, in
ascending index order. -/
theorem boundary_markers_order :
    translate_function_signature exC5 =
      .ok ("[](int a, int b, int c, int d) -> int",
        ["py::arg(\"a\")", "py::arg(\"b\")", "py::pos_only()",
         "py::arg(\"c\")", "py::kw_only()", "py::arg(\"d\")"],
        []) := by
  rfl

theorem splitDepthZero_ne_nil (cs : List Char) (d : Int) : splitDepthZero cs d ≠ [] := by
  cases cs with
  | nil => simp [splitDepthZero]
  | cons c cs =>
    unfold splitDepthZero
    split
    · simp
    · split <;> simp

theorem splitOnDollar_marks (cs : List Char) : ∀ d : Int, '$' ∉ cs →
    splitOnDollar ((cs.zip (accumulate (cs.map bracketDelta) d)).map
      (fun cn => if cn.1 = ',' ∧ cn.2 = 0 then '$' else cn.1)) =
      splitDepthZero cs d := by
  induction cs with
  | nil => intro d _; rfl
  | cons c cs ih =>
    intro d h
    have hc : c ≠ '$' := by
      intro hcc
      exact h (hcc ▸ List.mem_cons_self c cs)
    have htl : '$' ∉ cs := fun hm => h (List.mem_cons_of_mem c hm)
    simp only [List.map_cons, accumulate, List.zip_cons_cons]
    by_cases hcomma : c = ',' ∧ d + bracketDelta c = 0
    · rw [if_pos hcomma]
      have hceq : c = ',' := hcomma.1
      have hdel : bracketDelta c = 0 := by rw [hceq]; rfl
      have hd : d = 0 := by
        have := hcomma.2
        rw [hdel] at this
        omega
      rw [show splitOnDollar ('$' :: (cs.zip (accumulate (cs.map bracketDelta)
          (d + bracketDelta c))).map (fun cn => if cn.1 = ',' ∧ cn.2 = 0 then '$' else cn.1)) =
        [] :: splitOnDollar ((cs.zip (accumulate (cs.map bracketDelta)
          (d + bracketDelta c))).map (fun cn => if cn.1 = ',' ∧ cn.2 = 0 then '$' else cn.1))
        from by rw [splitOnDollar]; simp]
      rw [ih (d + bracketDelta c) htl]
      conv_rhs => rw [splitDepthZero]
      rw [if_pos ⟨hceq, hd⟩, hdel, add_zero]
    · rw [if_neg hcomma]
      have hsplit : splitOnDollar (c :: (cs.zip (accumulate (cs.map bracketDelta)
          (d + bracketDelta c))).map (fun cn => if cn.1 = ',' ∧ cn.2 = 0 then '$' else cn.1)) =
          match splitOnDollar ((cs.zip (accumulate (cs.map bracketDelta)
            (d + bracketDelta c))).map (fun cn => if cn.1 = ',' ∧ cn.2 = 0 then '$' else cn.1)) with
          | r :: rs => (c :: r) :: rs
          | [] => [[c]] := by
        rw [splitOnDollar]
        rw [if_neg hc]
      rw [hsplit, ih (d + bracketDelta c) htl]
      have hcond : ¬(c = ',' ∧ d = 0) := by
        intro hcc
        apply hcomma
        refine ⟨hcc.1, ?_⟩
        have hz : bracketDelta c = 0 := by rw [hcc.1]; rfl
        omega
      conv_rhs => rw [splitDepthZero]
      rw [if_neg hcond]

/-- C9 (amended): whenever the extracted parenthesised body of the signature
string contains no literal `$` (the internal replacement marker),
`_splitargs` splits at exactly the commas at bracket-nesting depth zero: it
agrees with the depth-scanning reference splitter. -/
theorem splitargs_depth_zero_commas (s : String)
    (h : '$' ∉ extractParen s.data) :
    _splitargs s = splitTopLevelCommas s := by
  unfold _splitargs splitTopLevelCommas
  simp only []
  rw [splitOnDollar_marks (extractParen s.data) 0 h]

/-- C9 witness: a parameter list with a nested generic comma. -/
theorem splitargs_depth_zero_commas_witness :
    ('$' ∉ extractParen "(a: dict[str, int], b)".data) ∧
    _splitargs "(a: dict[str, int], b)" = splitTopLevelCommas "(a: dict[str, int], b)" ∧
    _splitargs "(a: dict[str, int], b)" = ["a: dict[str, int]", "b"] :=
  ⟨by decide, splitargs_depth_zero_commas "(a: dict[str, int], b)" (by decide), by rfl⟩

/-- C9 counterexample: a literal `$` in the signature body becomes a split
point even though it is not a comma, so splitting does not happen only at
depth-zero commas. -/
theorem splitargs_dollar_split :
    _splitargs "(a$b)" = ["a", "b"] ∧
    splitTopLevelCommas "(a$b)" = ["a$b"] ∧
    _splitargs "(a$b)" ≠ splitTopLevelCommas "(a$b)" :=
  ⟨by rfl, by rfl, by decide⟩

theorem transItems_anns_shape (va vk : Option String) (dfs : List (String × PyValue)) :
    ∀ (items : List (String × PyAnnot)) ds anns hs ret,
    transItems va vk dfs items = .ok (ds, anns, hs, ret) →
    ∀ a ∈ anns, ∃ n t, (n, t) ∈ items ∧ n ≠ "return" ∧
      va ≠ some n ∧ vk ≠ some n ∧ a = mkArgAnn n dfs := by
  intro items
  induction items with
  | nil =>
    intro ds anns hs ret h a ha
    simp only [transItems] at h
    simp at h
    obtain ⟨-, h2, -, -⟩ := h
    subst h2
    simp at ha
  | cons p rest ih =>
    obtain ⟨nm, ty⟩ := p
    intro ds anns hs ret h a ha
    simp only [transItems] at h
    cases htt : translate_type ty with
    | error e => rw [htt] at h; simp at h
    | ok cpptype =>
      rw [htt] at h
      cases hr : transItems va vk dfs rest with
      | error e => rw [hr] at h; simp at h
      | ok quad =>
        obtain ⟨ds0, anns0, hs0, ret0⟩ := quad
        rw [hr] at h
        simp only [] at h
        by_cases hnm : nm = "return"
        · rw [if_pos hnm] at h
          simp at h
          obtain ⟨-, h2, -, -⟩ := h
          subst h2
          obtain ⟨n, t, hmem, hnr, hva, hvk, he⟩ := ih _ _ _ _ hr a ha
          exact ⟨n, t, List.mem_cons_of_mem _ hmem, hnr, hva, hvk, he⟩
        · rw [if_neg hnm] at h
          simp only [Except.ok.injEq, Prod.mk.injEq] at h
          obtain ⟨-, h2, -, -⟩ := h
          by_cases hvar : va = some nm ∨ vk = some nm
          · rw [if_pos hvar] at h2
            subst h2
            obtain ⟨n, t, hmem, hnr, hva, hvk, he⟩ := ih _ _ _ _ hr a ha
            exact ⟨n, t, List.mem_cons_of_mem _ hmem, hnr, hva, hvk, he⟩
          · rw [if_neg hvar] at h2
            subst h2
            rcases List.mem_cons.mp ha with hhead | htail
            · push_neg at hvar
              exact ⟨nm, ty, List.mem_cons_self _ _, hnm, hvar.1, hvar.2, hhead⟩
            · obtain ⟨n, t, hmem, hnr, hva, hvk, he⟩ := ih _ _ _ _ hr a htail
              exact ⟨n, t, List.mem_cons_of_mem _ hmem, hnr, hva, hvk, he⟩

theorem transItems_variadic_defs (va vk : Option String) (dfs : List (String × PyValue)) :
    ∀ (items : List (String × PyAnnot)) v t ds anns hs ret,
    transItems va vk dfs items = .ok (ds, anns, hs, ret) →
    (v, t) ∈ items → v ≠ "return" → dfs.lookup v = none →
    (va = some v → ("py::args " ++ v) ∈ ds) ∧
    (va ≠ some v → vk = some v → ("const py::kwargs& " ++ v) ∈ ds) := by
  intro items
  induction items with
  | nil =>
    intro v t ds anns hs ret h hmem
    simp at hmem
  | cons p rest ih =>
    obtain ⟨nm, ty⟩ := p
    intro v t ds anns hs ret h hmem hvret hnd
    simp only [transItems] at h
    cases htt : translate_type ty with
    | error e => rw [htt] at h; simp at h
    | ok cpptype =>
      rw [htt] at h
      cases hr : transItems va vk dfs rest with
      | error e => rw [hr] at h; simp at h
      | ok quad =>
        obtain ⟨ds0, anns0, hs0, ret0⟩ := quad
        rw [hr] at h
        simp only [] at h
        rcases List.mem_cons.mp hmem with hhead | htail
        · injection hhead with hv ht
          subst hv
          subst ht
          rw [if_neg hvret] at h
          simp only [Except.ok.injEq, Prod.mk.injEq] at h
          obtain ⟨h1, -, -, -⟩ := h
          subst h1
          rw [hnd]
          simp only []
          constructor
          · intro hva
            rw [if_pos hva]
            exact List.mem_cons_self _ _
          · intro hva hvk
            rw [if_neg hva, if_pos hvk]
            exact List.mem_cons_self _ _
        · by_cases hnm : nm = "return"
          · rw [if_pos hnm] at h
            simp only [Except.ok.injEq, Prod.mk.injEq] at h
            obtain ⟨h1, -, -, -⟩ := h
            subst h1
            exact ih v t _ _ _ _ hr htail hvret hnd
          · rw [if_neg hnm] at h
            simp only [Except.ok.injEq, Prod.mk.injEq] at h
            obtain ⟨h1, -, -, -⟩ := h
            subst h1
            have hih := ih v t _ _ _ _ hr htail hvret hnd
            exact ⟨fun hv => List.mem_cons_of_mem _ (hih.1 hv),
              fun hv1 hv2 => List.mem_cons_of_mem _ (hih.2 hv1 hv2)⟩

theorem transItems_translates (va vk : Option String) (dfs : List (String × PyValue)) :
    ∀ (items : List (String × PyAnnot)) ds anns hs ret,
    transItems va vk dfs items = .ok (ds, anns, hs, ret) →
    ∀ p ∈ items, ∃ c, translate_type p.2 = .ok c := by
  intro items
  induction items with
  | nil => intro ds anns hs ret h p hp; simp at hp
  | cons q rest ih =>
    obtain ⟨nm, ty⟩ := q
    intro ds anns hs ret h p hp
    simp only [transItems] at h
    cases htt : translate_type ty with
    | error e => rw [htt] at h; simp at h
    | ok cpptype =>
      rw [htt] at h
      cases hr : transItems va vk dfs rest with
      | error e => rw [hr] at h; simp at h
      | ok quad =>
        obtain ⟨ds0, anns0, hs0, ret0⟩ := quad
        rcases List.mem_cons.mp hp with hhead | htail
        · subst hhead
          exact ⟨cpptype, htt⟩
        · exact ih _ _ _ _ hr p htail

theorem mem_pyInsert (l : List String) (i : Nat) (x a : String)
    (h : a ∈ pyInsert l i x) : a = x ∨ a ∈ l := by
  unfold pyInsert at h
  rcases List.mem_append.mp h with h1 | h2
  · rcases List.mem_append.mp h1 with h3 | h4
    · exact Or.inr (List.take_subset i l h3)
    · exact Or.inl (List.mem_singleton.mp h4)
  · exact Or.inr (List.drop_subset i l h2)

theorem mem_insert_opt (o : Option Nat) (l : List String) (x a : String)
    (h : a ∈ (match o with | some i => pyInsert l i x | none => l)) :
    a = x ∨ a ∈ l := by
  cases o with
  | none => exact Or.inr h
  | some i => exact mem_pyInsert l i x a h

/-- C4 (amended): variadic parameters render as the fixed catch-all tokens
(`py::args` / `const py::kwargs&`) and never produce a binding-annotation
entry — every produced entry is a boundary marker or the `py::arg` of some
non-variadic annotated parameter — but, contrary to the original claim,
their annotations ARE run through the type translator (an overall success
means every annotation translated) and their headers ARE collected (the
concrete `(*args: str) -> None` contributes `<string>`). -/
theorem variadic_fixed_token_no_binding :
    (∀ f sig anns hs, translate_function_signature f = .ok (sig, anns, hs) →
      ∀ a ∈ anns, a = "py::pos_only()" ∨ a = "py::kw_only()" ∨
        ∃ n t, (n, t) ∈ annotItems f ∧ n ≠ "return" ∧ pyVarargs f ≠ some n ∧
          pyVarkw f ≠ some n ∧ a = mkArgAnn n (pyDefaults f)) ∧
    (∀ f v t ds anns hs ret,
      transItems (pyVarargs f) (pyVarkw f) (pyDefaults f) (annotItems f) =
        .ok (ds, anns, hs, ret) →
      (v, t) ∈ annotItems f → v ≠ "return" → (pyDefaults f).lookup v = none →
      (pyVarargs f = some v → ("py::args " ++ v) ∈ ds) ∧
      (pyVarargs f ≠ some v → pyVarkw f = some v →
        ("const py::kwargs& " ++ v) ∈ ds)) ∧
    (∀ va vk dfs items ds anns hs ret,
      transItems va vk dfs items = .ok (ds, anns, hs, ret) →
      ∀ p ∈ items, ∃ c, translate_type p.2 = .ok c) ∧
    translate_function_signature exC4 = .ok ("[](py::args args) -> void", [], ["<string>"]) := by
  refine ⟨?_, ?_, ?_, by rfl⟩
  · intro f sig anns hs h a ha
    simp only [translate_function_signature] at h
    cases hti : transItems (pyVarargs f) (pyVarkw f) (pyDefaults f) (annotItems f) with
    | error e => rw [hti] at h; simp at h
    | ok quad =>
      obtain ⟨ds0, anns0, hs0, ret0⟩ := quad
      rw [hti] at h
      simp only [Except.ok.injEq, Prod.mk.injEq] at h
      obtain ⟨-, h2, -⟩ := h
      subst h2
      rcases mem_insert_opt _ _ _ _ ha with hkw | ha2
      · exact Or.inr (Or.inl hkw)
      · rcases mem_insert_opt _ _ _ _ ha2 with hpos | ha3
        · exact Or.inl hpos
        · exact Or.inr (Or.inr (transItems_anns_shape _ _ _ _ _ _ _ _ hti a ha3))
  · intro f v t ds anns hs ret h hmem hvret hnd
    exact transItems_variadic_defs _ _ _ _ v t _ _ _ _ h hmem hvret hnd
  · intro va vk dfs items ds anns hs ret h p hp
    exact transItems_translates va vk dfs items _ _ _ _ h p hp

/-- C4 witness: applying the theorem to `(*args: str) -> None` shows the
fixed token in the rendered parameter list. -/
theorem variadic_fixed_token_no_binding_witness :
    pyVarargs exC4 = some "args" ∧
    transItems (pyVarargs exC4) (pyVarkw exC4) (pyDefaults exC4) (annotItems exC4) =
      .ok (["py::args args"], [], ["<string>"], some "void") ∧
    ("py::args " ++ "args") ∈ (["py::args args"] : List String) := by
  have hh := variadic_fixed_token_no_binding.2.1 exC4 "args" (.plain (.mk .strT []))
    ["py::args args"] [] ["<string>"] (some "void") (by rfl)
    (by rw [show annotItems exC4 = [("args", .plain (.mk .strT [])),
        ("return", .plain (.mk .noneV []))] from rfl]
        exact List.mem_cons_self _ _)
    (by decide) (by rfl)
  exact ⟨rfl, by rfl, hh.1 rfl⟩

/-- C4 counterexample: the variadic parameter of `(*args: str) -> None` is
run through the type translator and contributes the `<string>` header (the
claim says it contributes nothing), and an unmapped variadic annotation
even aborts translation with `CppTypeError` (the claim says the annotation
is not translated at all). -/
theorem variadic_annotation_translated :
    translate_function_signature exC4 =
      .ok ("[](py::args args) -> void", [], ["<string>"]) ∧
    (["<string>"] : List String) ≠ [] ∧
    translate_type (.plain (.mk (.unknown "Foo") [])) =
      .error (.cppTypeError (unmappedMsg (.unknown "Foo"))) ∧
    translate_function_signature exC4bad =
      .error (.cppTypeError (unmappedMsg (.unknown "Foo"))) :=
  ⟨by rfl, by decide, by rfl, by rfl⟩
